import Mathlib

/-!
# WinVBlock device core (`src/winvblock/device.c`, `src/include/aoe.h`)

A shallow embedding of the generic device object model: device creation and
default operations, the operation-table dispatchers, the PnP ID query handler
and the device/handle association.

Memory is modelled as a list of live pool blocks, each a list of cells.  A
cell of a device block is one pointer-sized word; a cell of a string buffer is
one `WCHAR`.  Every pool request, release, indirect call and request
completion is appended to an event log, so that statements such as "released
exactly once" or "never dispatched" can be read off the log.
-/

namespace WinVBlock

/-! ## Data model -/

/-- Addresses.  The null pointer is address `0`. -/
abbrev Ptr := Nat

/-- The C constant `NULL`. -/
def NULL : Ptr := 0

/-- The three `NTSTATUS` codes used by `device.c`. -/
inductive NTSTATUS
  | STATUS_SUCCESS
  | STATUS_NOT_SUPPORTED
  | STATUS_INSUFFICIENT_RESOURCES
  deriving DecidableEq, Repr

/-- Functions whose address can be held by a slot of the operation table: the
two static defaults of `device.c`, and operation number `id` supplied by a
concrete device kind. -/
inductive Func
  | device__make_pdo_
  | device__free_dev_
  | kind (id : Nat)
  deriving DecidableEq, Repr

/-- One memory cell: an integer or data pointer (`word 0` is the null
pointer and the zero that `RtlZeroMemory` writes), or the address of a
function, which is never null. -/
inductive Cell
  | word (n : Nat)
  | fn (f : Func)
  deriving DecidableEq, Repr

/-- Undefined behaviours the code can run into. -/
inductive Fault
  | null_call
  | wild_call
  | bad_access
  deriving DecidableEq, Repr

/-- A live pool allocation: its address and its contents. -/
structure Block where
  base : Ptr
  cells : List Cell
  deriving DecidableEq, Repr

/-- Observable steps, in the order they happen. -/
inductive Event
  | alloc (cells : Nat) (ret : Ptr)
  | free (p : Ptr)
  | call (f : Func) (dev : Ptr)
  | complete (info : Nat) (status : NTSTATUS)
  deriving DecidableEq, Repr

/-- The machine state.  `heap` is the set of live allocations, oldest first.
`pool` is the behaviour of the pool allocator (an external collaborator): its
answers to the coming requests, each the address it returns (`0` when the
request fails) and the bytes that happen to be in the block it hands out.  An
exhausted list fails every request. -/
structure State where
  heap : List Block
  pool : List (Ptr × List Cell)
  log : List Event
  deriving DecidableEq, Repr

/-- The I/O request packet, reduced to the fields `device.c` touches:
`Parameters.QueryId.IdType` of the current stack location and
`IoStatus.Information`. -/
structure IRP where
  IdType : Nat
  Information : Nat
  deriving DecidableEq, Repr

/-- Modelled from the spec: `struct device__type` and `struct device__ops`
(`device.h` is missing).  The spec gives a device an operation table with the
slots create_child_node, free, close and query_identity and a back-reference
to the owning driver; the field order is not known, so the layout is a
parameter: `size` is `sizeof (struct device__type)` in pointer-sized words
and the other fields are the word offsets of the named members. -/
structure device__layout where
  size : Nat
  DriverObject : Nat
  create_pdo : Nat
  free : Nat
  close : Nat
  pnp_id : Nat
  deriving DecidableEq, Repr

/-- A layout is well formed when the five named members lie inside the device
and occupy different words. -/
def device__layout.wf (L : device__layout) : Prop :=
  L.DriverObject < L.size ∧ L.create_pdo < L.size ∧ L.free < L.size ∧
  L.close < L.size ∧ L.pnp_id < L.size ∧
  [L.DriverObject, L.create_pdo, L.free, L.close, L.pnp_id].Nodup

instance (L : device__layout) : Decidable L.wf := by
  unfold device__layout.wf; infer_instance

/-- Width of `size_t` / `ULONG_PTR` on the two targets of the driver. -/
inductive Arch
  | x86
  | x64
  deriving DecidableEq, Repr

/-- One more than `SIZE_MAX`. -/
def Arch.size_mod : Arch → Nat
  | .x86 => 2 ^ 32
  | .x64 => 2 ^ 64

/-- Everything `device.c` takes from outside the file: the target, the layout
of the device, the global `driver__obj_ptr`, and the operations installed by
concrete device kinds.  `kind_op id dev st` runs operation `id` (a PDO
creation, close or free operation) on `dev` and gives its return value and the
state it leaves.  `kind_pnp_id id dev query_type` is the result of the
identity operation `id`: the count it returns and the contents it leaves in
the 512-element buffer (index to wide character). -/
structure Env where
  arch : Arch
  layout : device__layout
  driver__obj_ptr : Ptr
  kind_op : Nat → Ptr → State → Ptr × State
  kind_pnp_id : Nat → Ptr → Nat → Nat × (Nat → Nat)

/-! ## Memory -/

/-- The live block at address `p`, if any. -/
def heap_find : List Block → Ptr → Option Block
  | [], _ => none
  | b :: bs, p => if b.base = p then some b else heap_find bs p

/-- Replace the contents of the live block at address `p`. -/
def heap_put : List Block → Ptr → List Cell → List Block
  | [], _, _ => []
  | b :: bs, p, cs => if b.base = p then ⟨p, cs⟩ :: bs else b :: heap_put bs p cs

/-- Remove the live block at address `p`. -/
def heap_drop : List Block → Ptr → List Block
  | [], _ => []
  | b :: bs, p => if b.base = p then bs else b :: heap_drop bs p

/-- Read cell `i` of the block at `p`. -/
def load (st : State) (p : Ptr) (i : Nat) : Except Fault Cell :=
  match heap_find st.heap p with
  | none => .error .bad_access
  | some b =>
    match b.cells.get? i with
    | none => .error .bad_access
    | some c => .ok c

/-- Write cell `i` of the block at `p`. -/
def store (st : State) (p : Ptr) (i : Nat) (c : Cell) : Except Fault State :=
  match heap_find st.heap p with
  | none => .error .bad_access
  | some b =>
    if i < b.cells.length then
      .ok { st with heap := heap_put st.heap p (b.cells.set i c) }
    else .error .bad_access

/-- The library routine `RtlZeroMemory(p, n)`, with `n` counted in cells: the
first `n` cells of the block become zero. -/
def RtlZeroMemory (st : State) (p : Ptr) (n : Nat) : Except Fault State :=
  match heap_find st.heap p with
  | none => .error .bad_access
  | some b =>
    if n ≤ b.cells.length then
      .ok { st with heap := heap_put st.heap p (List.replicate n (Cell.word 0) ++ b.cells.drop n) }
    else .error .bad_access

/-- The library routine `RtlCopyMemory(dst, src, n)`, with `n` counted in
cells: the first `n` cells of `src` are copied over the first `n` cells of
`dst`.  Reading or writing past the end of a block is a fault. -/
def RtlCopyMemory (st : State) (dst src : Ptr) (n : Nat) : Except Fault State :=
  match heap_find st.heap src, heap_find st.heap dst with
  | some s, some d =>
    if n ≤ s.cells.length ∧ n ≤ d.cells.length then
      .ok { st with heap := heap_put st.heap dst (s.cells.take n ++ d.cells.drop n) }
    else .error .bad_access
  | _, _ => .error .bad_access

/-- The contents of a block of `n` cells handed out without being cleared:
whatever bytes `g` were there. -/
def stale_cells (g : List Cell) (n : Nat) : List Cell :=
  (List.range n).map fun i => g.getD i (Cell.word 0)

/-- One request of `n` cells to the pool allocator.  The allocator answers
with the head of `pool`; a clearing request gets a zero-filled block. -/
def pool_alloc (st : State) (n : Nat) (clear : Bool) : Ptr × State :=
  match st.pool with
  | [] => (NULL, { st with log := st.log ++ [Event.alloc n NULL] })
  | (p, g) :: rest =>
    if p = NULL then
      (NULL, { st with pool := rest, log := st.log ++ [Event.alloc n NULL] })
    else
      (p, { heap := st.heap ++
              [⟨p, if clear then List.replicate n (Cell.word 0) else stale_cells g n⟩],
            pool := rest,
            log := st.log ++ [Event.alloc n p] })

/-- Modelled from the spec: `wv_malloc` (`wv_stdlib.h` is missing), the
non-pageable pool allocation; it does not clear the block. -/
def wv_malloc (st : State) (n : Nat) : Ptr × State := pool_alloc st n false

/-- Modelled from the spec: `wv_mallocz` (`wv_stdlib.h` is missing), the
zeroing variant of `wv_malloc`. -/
def wv_mallocz (st : State) (n : Nat) : Ptr × State := pool_alloc st n true

/-- Modelled from the spec: `wv_palloc` (`wv_stdlib.h` is missing), the
pageable pool allocation; it does not clear the block. -/
def wv_palloc (st : State) (n : Nat) : Ptr × State := pool_alloc st n false

/-- Modelled from the spec: `wv_free` (`wv_stdlib.h` is missing), the explicit
release of a pool block. -/
def wv_free (st : State) (p : Ptr) : State :=
  { st with heap := heap_drop st.heap p, log := st.log ++ [Event.free p] }

/-- Modelled from the spec: `driver__complete_irp` (`driver.c` is missing),
the request-completion sink: it takes the information value and the status
code, completes the request and returns the status. -/
def driver__complete_irp (st : State) (irp : IRP) (info : Nat) (status : NTSTATUS) :
    NTSTATUS × IRP × State :=
  (status, irp, { st with log := st.log ++ [Event.complete info status] })

/-! ## `device.c` -/

/-- `device__init`: `RtlZeroMemory(dev, sizeof dev)` clears `sizeof dev`
bytes, the size of the pointer `dev`, that is the first word of the device;
then the three non-zero defaults are stored. -/
def device__init (env : Env) (st : State) (dev : Ptr) : Except Fault State :=
  match RtlZeroMemory st dev 1 with
  | .error e => .error e
  | .ok st1 =>
    match store st1 dev env.layout.DriverObject (Cell.word env.driver__obj_ptr) with
    | .error e => .error e
    | .ok st2 =>
      match store st2 dev env.layout.create_pdo (Cell.fn Func.device__make_pdo_) with
      | .error e => .error e
      | .ok st3 => store st3 dev env.layout.free (Cell.fn Func.device__free_dev_)

/-- `device__create`: allocate `sizeof *dev` with `wv_malloc`, return `NULL`
when that fails, otherwise initialise the block and return it. -/
def device__create (env : Env) (st : State) : Except Fault (Ptr × State) :=
  match wv_malloc st env.layout.size with
  | (dev, st1) =>
    if dev = NULL then .ok (NULL, st1)
    else
      match device__init env st1 dev with
      | .error e => .error e
      | .ok st2 => .ok (dev, st2)

/-- `device__make_pdo_`, the default PDO creation operation: it reports
failure, no matter what (`DBG` expands to nothing). -/
def device__make_pdo_ (st : State) (_dev : Ptr) : Ptr × State := (NULL, st)

/-- `device__free_dev_`, the default device deletion operation. -/
def device__free_dev_ (st : State) (dev : Ptr) : State := wv_free st dev

/-- Run the function `f` on the device `dev`; a function returning `void`
yields `0`. -/
def run_func (env : Env) (f : Func) (dev : Ptr) (st : State) : Ptr × State :=
  match f with
  | .device__make_pdo_ => device__make_pdo_ st dev
  | .device__free_dev_ => (0, device__free_dev_ st dev)
  | .kind id => env.kind_op id dev st

/-- The call `slot(dev)` through a function pointer read from the operation
table.  Nothing is checked before the call: a null slot is a call through a
null pointer, any other word that is not a function address a wild call. -/
def call_indirect (env : Env) (st : State) (slot : Cell) (dev : Ptr) :
    Except Fault (Ptr × State) :=
  match slot with
  | .word n => if n = 0 then .error .null_call else .error .wild_call
  | .fn f => .ok (run_func env f dev { st with log := st.log ++ [Event.call f dev] })

/-- `device__create_pdo`: `return dev->ops.create_pdo(dev);`. -/
def device__create_pdo (env : Env) (st : State) (dev : Ptr) : Except Fault (Ptr × State) :=
  match load st dev env.layout.create_pdo with
  | .error e => .error e
  | .ok slot => call_indirect env st slot dev

/-- `device__pnp_id`:
`return dev->ops.pnp_id ? dev->ops.pnp_id(dev, query_type, buf) : 0;`.
The result is a `winvblock__uint32`. -/
def device__pnp_id (env : Env) (st : State) (dev : Ptr) (query_type : Nat) (buf : Ptr) :
    Except Fault (Nat × State) :=
  match load st dev env.layout.pnp_id with
  | .error e => .error e
  | .ok (.word n) => if n = 0 then .ok (0, st) else .error .wild_call
  | .ok (.fn (.kind id)) =>
    match heap_find st.heap buf with
    | none => .error .bad_access
    | some b =>
      .ok ((env.kind_pnp_id id dev query_type).1 % 2 ^ 32,
           { st with
             heap := heap_put st.heap buf
               ((List.range b.cells.length).map fun i =>
                 Cell.word ((env.kind_pnp_id id dev query_type).2 i)),
             log := st.log ++ [Event.call (.kind id) dev] })
  | .ok (.fn _) => .error .wild_call

/-- The C constant `sizeof (WCHAR)`. -/
def sizeof_WCHAR : Nat := 2

/-- `device__pnp_query_id`, the IRP handler for a PnP ID query.  The working
buffer `str` is `WCHAR[512]`; the byte count `str_len * sizeof **str` is
computed in `size_t`. -/
def device__pnp_query_id (env : Env) (st : State) (dev : Ptr) (irp : IRP) :
    Except Fault (NTSTATUS × IRP × State) :=
  match wv_mallocz st 512 with
  | (str, st1) =>
    if str = NULL then
      .ok (driver__complete_irp st1 irp irp.Information .STATUS_INSUFFICIENT_RESOURCES)
    else
      match device__pnp_id env st1 dev irp.IdType str with
      | .error e => .error e
      | .ok (str_len, st2) =>
        if str_len = 0 then
          .ok (driver__complete_irp (wv_free st2 str) { irp with Information := 0 } 0
                .STATUS_NOT_SUPPORTED)
        else
          match wv_palloc st2 ((str_len * sizeof_WCHAR) % env.arch.size_mod / sizeof_WCHAR) with
          | (info, st3) =>
            if info = 0 then
              .ok (driver__complete_irp (wv_free st3 str) { irp with Information := info } info
                    .STATUS_INSUFFICIENT_RESOURCES)
            else
              match RtlCopyMemory st3 info str
                  ((str_len * sizeof_WCHAR) % env.arch.size_mod / sizeof_WCHAR) with
              | .error e => .error e
              | .ok st4 =>
                .ok (driver__complete_irp (wv_free st4 str) { irp with Information := info } info
                      .STATUS_SUCCESS)

/-- `device__close`: `dev->ops.close(dev);`. -/
def device__close (env : Env) (st : State) (dev : Ptr) : Except Fault State :=
  match load st dev env.layout.close with
  | .error e => .error e
  | .ok slot =>
    match call_indirect env st slot dev with
    | .error e => .error e
    | .ok r => .ok r.2

/-- `device__free`: `dev->ops.free(dev);`. -/
def device__free (env : Env) (st : State) (dev : Ptr) : Except Fault State :=
  match load st dev env.layout.free with
  | .error e => .error e
  | .ok slot =>
    match call_indirect env st slot dev with
    | .error e => .error e
    | .ok r => .ok r.2

/-! ## Device and handle association -/

/-- The OS device objects.  `DeviceExtension h` is the `DeviceExtension`
member of the `DEVICE_OBJECT` at address `h` (`none` where there is no device
object); `device e` is the `device` member of the extension area at address
`e` (`none` where there is no extension area). -/
structure Objects where
  DeviceExtension : Ptr → Option Ptr
  device : Ptr → Option Ptr

/-- Read a pointer member through the pointer `p`. -/
def deref (m : Ptr → Option Ptr) (p : Ptr) : Except Fault Ptr :=
  if p = NULL then .error .bad_access
  else
    match m p with
    | none => .error .bad_access
    | some v => .ok v

/-- `device__get`: `NULL` for the null handle, otherwise
`dev_obj->DeviceExtension->device`. -/
def device__get (os : Objects) (dev_obj : Ptr) : Except Fault Ptr :=
  if dev_obj = NULL then .ok NULL
  else
    match deref os.DeviceExtension dev_obj with
    | .error e => .error e
    | .ok dev_ext => deref os.device dev_ext

/-- `device__set`: `dev_obj->DeviceExtension->device = dev`. -/
def device__set (os : Objects) (dev_obj : Ptr) (dev : Ptr) : Except Fault Objects :=
  match deref os.DeviceExtension dev_obj with
  | .error e => .error e
  | .ok dev_ext =>
    match deref os.device dev_ext with
    | .error e => .error e
    | .ok _ => .ok { os with device := fun a => if a = dev_ext then some dev else os.device a }

/-! ## `aoe.h` -/

/-- The macro `htons(x)`:
`(UINT16)((((x) << 8) & 0xff00) | (((x) >> 8) & 0xff))`. -/
def htons (x : Nat) : Nat := (((x <<< 8) &&& 0xff00) ||| ((x >>> 8) &&& 0xff)) % 2 ^ 16

/-- The macro `ntohs(x)`:
`(UINT16)((((x) << 8) & 0xff00) | (((x) >> 8) & 0xff))`. -/
def ntohs (x : Nat) : Nat := (((x <<< 8) &&& 0xff00) ||| ((x >>> 8) &&& 0xff)) % 2 ^ 16

/-- The contents `device__init` leaves in a device block that was handed out
holding the bytes `g`: the first word cleared, then the three defaults
stored. -/
def device__image (env : Env) (g : List Cell) : List Cell :=
  (((List.replicate 1 (Cell.word 0) ++ (stale_cells g env.layout.size).drop 1).set
      env.layout.DriverObject (Cell.word env.driver__obj_ptr)).set
      env.layout.create_pdo (Cell.fn Func.device__make_pdo_)).set
      env.layout.free (Cell.fn Func.device__free_dev_)

/-! ## Concrete instances -/

/-- A device of eight words: the driver back-reference in word 3 and the
operation table in words 4 to 7. -/
def layout8 : device__layout :=
  { size := 8, DriverObject := 3, create_pdo := 4, free := 7, close := 6, pnp_id := 5 }

/-- An environment over `layout8`.  Identity operation 0 answers with three
wide characters, every other identity operation with a count of zero. -/
def env8 : Env :=
  { arch := Arch.x86
    layout := layout8
    driver__obj_ptr := 77
    kind_op := fun _ _ st => (9, st)
    kind_pnp_id := fun id _ ty => if id = 0 then (3, fun i => 65 + i + ty) else (0, fun _ => 0) }

/-- Eight non-zero words left behind in a pool block. -/
def stale8 : List Cell :=
  [Cell.word 11, Cell.word 12, Cell.word 13, Cell.word 14, Cell.word 15, Cell.word 16,
   Cell.word 17, Cell.word 18]

/-- An empty heap whose pool hands out the block at 100 holding `stale8`. -/
def st_new : State := { heap := [], pool := [(100, stale8)], log := [] }

/-- An empty heap whose pool hands out a block at 100 that happens to hold
zeros. -/
def st_new_zero : State := { heap := [], pool := [(100, [])], log := [] }

/-- A state with one live device at 100 whose identity and close slots hold
`pnp` and `close`, and a pool that answers the next requests with `pool`. -/
def st_dev (pnp close : Cell) (pool : List (Ptr × List Cell)) : State :=
  { heap := [⟨100, [Cell.word 0, Cell.word 0, Cell.word 0, Cell.word 77,
              Cell.fn Func.device__make_pdo_, pnp, close, Cell.fn Func.device__free_dev_]⟩]
    pool := pool
    log := [] }

/-- A live device at 100 with identity operation 0; the pool answers the next
two requests with the blocks at 200 and 300. -/
def st_query : State :=
  st_dev (Cell.fn (Func.kind 0)) (Cell.word 0) [(200, []), (300, [Cell.word 5])]

/-- A live device at 100 with identity operation 0; the pool answers one
request with the block at 200 and is then exhausted. -/
def st_query_short : State := st_dev (Cell.fn (Func.kind 0)) (Cell.word 0) [(200, [])]

/-- A live device at 100 with identity operation 0 and an exhausted pool. -/
def st_query_dry : State := st_dev (Cell.fn (Func.kind 0)) (Cell.word 0) []

/-- One device object at 10 whose extension area at 20 has an empty device
slot. -/
def os_empty : Objects :=
  { DeviceExtension := fun h => if h = 10 then some 20 else none
    device := fun e => if e = 20 then some NULL else none }

/-- Two device objects, at 10 and 11, with the extension areas 20 and 21; the
device slots hold 7 and 8. -/
def os_two : Objects :=
  { DeviceExtension := fun h => if h = 10 then some 20 else if h = 11 then some 21 else none
    device := fun e => if e = 20 then some 7 else if e = 21 then some 8 else none }

/-- The environment `env8` with an identity operation that answers with a
count of 513, one more than the buffer holds. -/
def env_over : Env := { env8 with kind_pnp_id := fun _ _ _ => (513, fun i => i) }

/-- The environment `env8` (a 32-bit target) with an identity operation that
answers with a count of `2 ^ 31 + 1`. -/
def env_wrap : Env := { env8 with kind_pnp_id := fun _ _ _ => (2 ^ 31 + 1, fun i => i) }

/-- The address the pool allocator returns to the next request. -/
def pool_next (pool : List (Ptr × List Cell)) : Ptr :=
  match pool with
  | [] => NULL
  | (p, _) :: _ => p

/-! ## Heap lemmas -/

theorem heap_find_append_some {H : List Block} {p : Ptr} {b : Block} (L : List Block)
    (h : heap_find H p = some b) : heap_find (H ++ L) p = some b := by
  induction H with
  | nil => simp [heap_find] at h
  | cons a as ih =>
    by_cases hb : a.base = p
    · simpa [heap_find, hb] using h
    · simp only [heap_find, hb, if_false, List.cons_append] at h ⊢
      exact ih h

theorem heap_find_append_none {H : List Block} {p : Ptr} (L : List Block)
    (h : heap_find H p = none) : heap_find (H ++ L) p = heap_find L p := by
  induction H with
  | nil => rfl
  | cons a as ih =>
    by_cases hb : a.base = p
    · simp [heap_find, hb] at h
    · simp only [heap_find, hb, if_false, List.cons_append] at h ⊢
      exact ih h

theorem heap_put_append_none {H : List Block} {p : Ptr} (L : List Block) (cs : List Cell)
    (h : heap_find H p = none) : heap_put (H ++ L) p cs = H ++ heap_put L p cs := by
  induction H with
  | nil => rfl
  | cons a as ih =>
    by_cases hb : a.base = p
    · simp [heap_find, hb] at h
    · simp only [heap_find, hb, if_false, List.cons_append] at h
      simp only [heap_put, hb, if_false, List.cons_append]
      exact congrArg (List.cons a) (ih h)

theorem heap_drop_append_none {H : List Block} {p : Ptr} (L : List Block)
    (h : heap_find H p = none) : heap_drop (H ++ L) p = H ++ heap_drop L p := by
  induction H with
  | nil => rfl
  | cons a as ih =>
    by_cases hb : a.base = p
    · simp [heap_find, hb] at h
    · simp only [heap_find, hb, if_false, List.cons_append] at h
      simp only [heap_drop, hb, if_false, List.cons_append]
      exact congrArg (List.cons a) (ih h)

theorem heap_find_single (p : Ptr) (cs : List Cell) : heap_find [⟨p, cs⟩] p = some ⟨p, cs⟩ := by
  simp [heap_find]

theorem heap_put_single (p : Ptr) (cs cs1 : List Cell) : heap_put [⟨p, cs⟩] p cs1 = [⟨p, cs1⟩] := by
  simp [heap_put]

theorem heap_drop_single (p : Ptr) (cs : List Cell) : heap_drop [⟨p, cs⟩] p = [] := by
  simp [heap_drop]

/-- Reading a device that is live is not disturbed by blocks allocated after
it. -/
theorem load_append {st : State} {p : Ptr} {i : Nat} {c : Cell} (L : List Block)
    (P1 : List (Ptr × List Cell)) (E1 : List Event) (h : load st p i = .ok c) :
    load ⟨st.heap ++ L, P1, E1⟩ p i = .ok c := by
  unfold load at h ⊢
  simp only at h ⊢
  cases hf : heap_find st.heap p with
  | none => simp [hf] at h
  | some b =>
    rw [heap_find_append_some L hf]
    simpa [hf] using h

theorem heap_find_last {H : List Block} {p : Ptr} (cs : List Cell)
    (h : heap_find H p = none) : heap_find (H ++ [⟨p, cs⟩]) p = some ⟨p, cs⟩ := by
  rw [heap_find_append_none _ h, heap_find_single]

theorem heap_put_last {H : List Block} {p : Ptr} (cs cs1 : List Cell)
    (h : heap_find H p = none) : heap_put (H ++ [⟨p, cs⟩]) p cs1 = H ++ [⟨p, cs1⟩] := by
  rw [heap_put_append_none _ _ h, heap_put_single]

theorem heap_drop_last {H : List Block} {p : Ptr} (cs : List Cell)
    (h : heap_find H p = none) : heap_drop (H ++ [⟨p, cs⟩]) p = H := by
  rw [heap_drop_append_none _ h, heap_drop_single, List.append_nil]

theorem heap_find_two_fst {H : List Block} {s r : Ptr} (cs cr : List Cell)
    (hs : heap_find H s = none) : heap_find (H ++ [⟨s, cs⟩, ⟨r, cr⟩]) s = some ⟨s, cs⟩ := by
  rw [heap_find_append_none _ hs]
  simp [heap_find]

theorem heap_find_two_snd {H : List Block} {s r : Ptr} (cs cr : List Cell)
    (hr : heap_find H r = none) (hne : s ≠ r) :
    heap_find (H ++ [⟨s, cs⟩, ⟨r, cr⟩]) r = some ⟨r, cr⟩ := by
  rw [heap_find_append_none _ hr]
  simp [heap_find, hne]

theorem heap_put_two_snd {H : List Block} {s r : Ptr} (cs cr x : List Cell)
    (hr : heap_find H r = none) (hne : s ≠ r) :
    heap_put (H ++ [⟨s, cs⟩, ⟨r, cr⟩]) r x = H ++ [⟨s, cs⟩, ⟨r, x⟩] := by
  rw [heap_put_append_none _ _ hr]
  simp [heap_put, hne]

theorem heap_drop_two_fst {H : List Block} {s r : Ptr} (cs cr : List Cell)
    (hs : heap_find H s = none) : heap_drop (H ++ [⟨s, cs⟩, ⟨r, cr⟩]) s = H ++ [⟨r, cr⟩] := by
  rw [heap_drop_append_none _ hs]
  simp [heap_drop]

theorem RtlCopyMemory_two {H : List Block} {s r : Ptr} (cs cr : List Cell)
    (P : List (Ptr × List Cell)) (E : List Event) (m : Nat)
    (hs : heap_find H s = none) (hr : heap_find H r = none) (hne : s ≠ r)
    (h1 : m ≤ cs.length) (h2 : m ≤ cr.length) :
    RtlCopyMemory ⟨H ++ [⟨s, cs⟩, ⟨r, cr⟩], P, E⟩ r s m =
      .ok ⟨H ++ [⟨s, cs⟩, ⟨r, cs.take m ++ cr.drop m⟩], P, E⟩ := by
  simp only [RtlCopyMemory, heap_find_two_fst _ _ hs, heap_find_two_snd _ _ hr hne, h1, h2,
    and_self, if_true, heap_put_two_snd _ _ _ hr hne]

/-! ## Device creation -/

theorem stale_cells_length (g : List Cell) (n : Nat) : (stale_cells g n).length = n := by
  simp [stale_cells]

theorem store_last {H : List Block} {p : Ptr} (cs : List Cell) (P : List (Ptr × List Cell))
    (E : List Event) (i : Nat) (c : Cell) (hfresh : heap_find H p = none)
    (hi : i < cs.length) :
    store ⟨H ++ [⟨p, cs⟩], P, E⟩ p i c = .ok ⟨H ++ [⟨p, cs.set i c⟩], P, E⟩ := by
  simp only [store, heap_find_append_none _ hfresh, heap_find_single, hi, if_true,
    heap_put_append_none _ _ hfresh, heap_put_single]

theorem RtlZeroMemory_last {H : List Block} {p : Ptr} (cs : List Cell)
    (P : List (Ptr × List Cell)) (E : List Event) (n : Nat)
    (hfresh : heap_find H p = none) (hn : n ≤ cs.length) :
    RtlZeroMemory ⟨H ++ [⟨p, cs⟩], P, E⟩ p n =
      .ok ⟨H ++ [⟨p, List.replicate n (Cell.word 0) ++ cs.drop n⟩], P, E⟩ := by
  simp only [RtlZeroMemory, heap_find_append_none _ hfresh, heap_find_single, hn, if_true,
    heap_put_append_none _ _ hfresh, heap_put_single]

theorem load_last {H : List Block} {p : Ptr} (cs : List Cell) (P : List (Ptr × List Cell))
    (E : List Event) (i : Nat) (c : Cell) (hfresh : heap_find H p = none)
    (hc : cs.get? i = some c) :
    load ⟨H ++ [⟨p, cs⟩], P, E⟩ p i = .ok c := by
  simp only [load, heap_find_append_none _ hfresh, heap_find_single, hc]

/-- A successful `device__create`: the pool hands out the fresh block `p`
holding the bytes `g`; the call returns `p` and leaves the block initialised
by `device__init`. -/
theorem device__create_ok (env : Env) (st : State) (p : Ptr) (g : List Cell)
    (rest : List (Ptr × List Cell)) (hL : env.layout.wf) (hpool : st.pool = (p, g) :: rest)
    (hp : p ≠ NULL) (hfresh : heap_find st.heap p = none) :
    device__create env st =
      .ok (p, ⟨st.heap ++ [⟨p, device__image env g⟩], rest,
                st.log ++ [Event.alloc env.layout.size p]⟩) := by
  obtain ⟨h1, h2, h3, -, -, -⟩ := hL
  have hs : 0 < env.layout.size := by omega
  simp only [device__create, wv_malloc, pool_alloc, hpool, hp, if_false, device__init,
    Bool.false_eq_true]
  rw [RtlZeroMemory_last _ _ _ _ hfresh (by rw [stale_cells_length]; omega)]
  simp only []
  rw [store_last _ _ _ _ _ hfresh (by
    simp only [List.length_append, List.length_replicate, List.length_drop,
      stale_cells_length]; omega)]
  simp only []
  rw [store_last _ _ _ _ _ hfresh (by
    simp only [List.length_set, List.length_append, List.length_replicate, List.length_drop,
      stale_cells_length]; omega)]
  simp only []
  rw [store_last _ _ _ _ _ hfresh (by
    simp only [List.length_set, List.length_append, List.length_replicate, List.length_drop,
      stale_cells_length]; omega)]
  rfl

theorem device__image_DriverObject (env : Env) (g : List Cell) (hL : env.layout.wf) :
    (device__image env g).get? env.layout.DriverObject = some (Cell.word env.driver__obj_ptr) := by
  obtain ⟨h1, h2, h3, -, -, hd⟩ := hL
  simp only [List.nodup_cons, List.mem_cons, List.mem_singleton, not_or] at hd
  have a1 : env.layout.create_pdo ≠ env.layout.DriverObject := fun h => hd.1.1 h.symm
  have a2 : env.layout.free ≠ env.layout.DriverObject := fun h => hd.1.2.1 h.symm
  simp [device__image, List.getElem?_set, a1, a2, stale_cells_length]
  omega

theorem device__image_create_pdo (env : Env) (g : List Cell) (hL : env.layout.wf) :
    (device__image env g).get? env.layout.create_pdo = some (Cell.fn Func.device__make_pdo_) := by
  obtain ⟨h1, h2, h3, -, -, hd⟩ := hL
  simp only [List.nodup_cons, List.mem_cons, List.mem_singleton, not_or] at hd
  have a2 : env.layout.free ≠ env.layout.create_pdo := fun h => hd.2.1.1 h.symm
  simp [device__image, List.getElem?_set, a2, stale_cells_length]
  omega

theorem device__image_free (env : Env) (g : List Cell) (hL : env.layout.wf) :
    (device__image env g).get? env.layout.free = some (Cell.fn Func.device__free_dev_) := by
  obtain ⟨h1, h2, h3, -, -, hd⟩ := hL
  simp [device__image, List.getElem?_set, stale_cells_length]
  omega

/-- Every word of a new device that `device__init` neither clears nor
stores still holds what the allocator handed out. -/
theorem device__image_stale (env : Env) (g : List Cell) (i : Nat) (hi : i < env.layout.size)
    (h0 : i ≠ 0) (h1 : i ≠ env.layout.DriverObject) (h2 : i ≠ env.layout.create_pdo)
    (h3 : i ≠ env.layout.free) :
    (device__image env g).get? i = some (g.getD i (Cell.word 0)) := by
  cases i with
  | zero => exact absurd rfl h0
  | succ j =>
    simp [device__image, List.getElem?_set, Ne.symm h1, Ne.symm h2, Ne.symm h3, stale_cells]
    exact ⟨j + 1, by simp [List.getElem?_range hi], rfl⟩

/-! ## The PnP ID query, path by path -/

/-- A pool request fails exactly when the pool is exhausted or answers null. -/
theorem pool_alloc_null (st : State) (n : Nat) (clear : Bool)
    (h : (pool_alloc st n clear).1 = NULL) :
    pool_alloc st n clear = (NULL, ⟨st.heap, st.pool.tail, st.log ++ [Event.alloc n NULL]⟩) := by
  unfold pool_alloc at h ⊢
  cases hp : st.pool with
  | nil => simp
  | cons a rest =>
    obtain ⟨p, g⟩ := a
    by_cases h0 : p = NULL
    · simp [h0]
    · simp [hp, h0] at h

/-- A pool request that succeeds took the head of the pool. -/
theorem pool_alloc_some (st : State) (n : Nat) (clear : Bool)
    (h : (pool_alloc st n clear).1 ≠ NULL) :
    ∃ g rest, st.pool = ((pool_alloc st n clear).1, g) :: rest := by
  unfold pool_alloc at h ⊢
  cases hp : st.pool with
  | nil => simp [hp] at h
  | cons a rest =>
    obtain ⟨p, g⟩ := a
    by_cases h0 : p = NULL
    · simp [hp, h0] at h
    · exact ⟨g, rest, by simp [h0]⟩

theorem device__pnp_id_null (env : Env) (st : State) (dev : Ptr) (ty : Nat) (buf : Ptr)
    (hdev : load st dev env.layout.pnp_id = .ok (Cell.word 0)) :
    device__pnp_id env st dev ty buf = .ok (0, st) := by
  simp [device__pnp_id, hdev]

theorem device__pnp_id_kind (env : Env) (st : State) (dev : Ptr) (ty : Nat) (s : Ptr)
    (cs : List Cell) (P : List (Ptr × List Cell)) (E : List Event) (id : Nat)
    (hdev : load st dev env.layout.pnp_id = .ok (Cell.fn (Func.kind id)))
    (hs : heap_find st.heap s = none) :
    device__pnp_id env ⟨st.heap ++ [⟨s, cs⟩], P, E⟩ dev ty s =
      .ok ((env.kind_pnp_id id dev ty).1 % 2 ^ 32,
           ⟨st.heap ++ [⟨s, (List.range cs.length).map fun i =>
              Cell.word ((env.kind_pnp_id id dev ty).2 i)⟩], P,
            E ++ [Event.call (Func.kind id) dev]⟩) := by
  simp only [device__pnp_id, load_append _ _ _ hdev, heap_find_last _ hs, heap_put_last _ _ hs]

/-- Scratch allocation failure. -/
theorem pnp_query_id_no_scratch (env : Env) (st : State) (dev : Ptr) (irp : IRP)
    (h : (wv_mallocz st 512).1 = NULL) :
    device__pnp_query_id env st dev irp =
      .ok (NTSTATUS.STATUS_INSUFFICIENT_RESOURCES, irp,
           ⟨st.heap, st.pool.tail,
            st.log ++ [Event.alloc 512 NULL,
              Event.complete irp.Information NTSTATUS.STATUS_INSUFFICIENT_RESOURCES]⟩) := by
  unfold wv_mallocz at h
  simp [device__pnp_query_id, wv_mallocz, pool_alloc_null st 512 true h, driver__complete_irp]

/-- The device has no identity operation. -/
theorem pnp_query_id_no_op (env : Env) (st : State) (dev : Ptr) (irp : IRP) (s : Ptr)
    (g : List Cell) (rest : List (Ptr × List Cell))
    (hpool : st.pool = (s, g) :: rest) (hs0 : s ≠ NULL) (hs : heap_find st.heap s = none)
    (hdev : load st dev env.layout.pnp_id = .ok (Cell.word 0)) :
    device__pnp_query_id env st dev irp =
      .ok (NTSTATUS.STATUS_NOT_SUPPORTED, { irp with Information := 0 },
           ⟨st.heap, rest,
            st.log ++ [Event.alloc 512 s, Event.free s,
              Event.complete 0 NTSTATUS.STATUS_NOT_SUPPORTED]⟩) := by
  simp only [device__pnp_query_id, wv_mallocz, pool_alloc, hpool, hs0, if_false, if_true,
    device__pnp_id_null env _ dev _ _ (load_append _ _ _ hdev), wv_free, heap_drop_last _ hs,
    driver__complete_irp, List.append_assoc, List.cons_append, List.nil_append]

/-- The identity operation answers with a count of zero. -/
theorem pnp_query_id_zero (env : Env) (st : State) (dev : Ptr) (irp : IRP) (s : Ptr)
    (g : List Cell) (rest : List (Ptr × List Cell)) (id : Nat)
    (hpool : st.pool = (s, g) :: rest) (hs0 : s ≠ NULL) (hs : heap_find st.heap s = none)
    (hdev : load st dev env.layout.pnp_id = .ok (Cell.fn (Func.kind id)))
    (hn : (env.kind_pnp_id id dev irp.IdType).1 % 2 ^ 32 = 0) :
    device__pnp_query_id env st dev irp =
      .ok (NTSTATUS.STATUS_NOT_SUPPORTED, { irp with Information := 0 },
           ⟨st.heap, rest,
            st.log ++ [Event.alloc 512 s, Event.call (Func.kind id) dev, Event.free s,
              Event.complete 0 NTSTATUS.STATUS_NOT_SUPPORTED]⟩) := by
  simp only [device__pnp_query_id, wv_mallocz, pool_alloc, hpool, hs0, if_false, if_true,
    device__pnp_id_kind env st dev _ s _ _ _ id hdev hs, hn, wv_free, heap_drop_last _ hs,
    driver__complete_irp, List.append_assoc, List.cons_append, List.nil_append]

theorem pool_alloc_fst (st : State) (n : Nat) (clear : Bool) :
    (pool_alloc st n clear).1 = pool_next st.pool := by
  unfold pool_alloc pool_next
  cases hp : st.pool with
  | nil => rfl
  | cons a rest =>
    obtain ⟨p, g⟩ := a
    by_cases h0 : p = NULL
    · simp [h0]
    · simp [h0]

/-- The identity operation answers, and the response buffer cannot be
allocated. -/
theorem pnp_query_id_no_response (env : Env) (st : State) (dev : Ptr) (irp : IRP) (s : Ptr)
    (g : List Cell) (rest : List (Ptr × List Cell)) (id : Nat)
    (hpool : st.pool = (s, g) :: rest) (hs0 : s ≠ NULL) (hs : heap_find st.heap s = none)
    (hdev : load st dev env.layout.pnp_id = .ok (Cell.fn (Func.kind id)))
    (hn : (env.kind_pnp_id id dev irp.IdType).1 % 2 ^ 32 ≠ 0)
    (hrest : pool_next rest = NULL) :
    device__pnp_query_id env st dev irp =
      .ok (NTSTATUS.STATUS_INSUFFICIENT_RESOURCES, { irp with Information := 0 },
           ⟨st.heap, rest.tail,
            st.log ++ [Event.alloc 512 s, Event.call (Func.kind id) dev,
              Event.alloc
                ((env.kind_pnp_id id dev irp.IdType).1 % 2 ^ 32 * sizeof_WCHAR %
                  env.arch.size_mod / sizeof_WCHAR) NULL,
              Event.free s,
              Event.complete 0 NTSTATUS.STATUS_INSUFFICIENT_RESOURCES]⟩) := by
  simp only [device__pnp_query_id, wv_mallocz, pool_alloc, hpool, hs0, if_false, if_true,
    device__pnp_id_kind env st dev _ s _ _ _ id hdev hs, hn, wv_palloc]
  have h := pool_alloc_null
    ⟨st.heap ++ [⟨s, (List.range (List.replicate 512 (Cell.word 0)).length).map fun i =>
        Cell.word ((env.kind_pnp_id id dev irp.IdType).2 i)⟩], rest,
      st.log ++ [Event.alloc 512 s] ++ [Event.call (Func.kind id) dev]⟩
    ((env.kind_pnp_id id dev irp.IdType).1 % 2 ^ 32 * sizeof_WCHAR %
      env.arch.size_mod / sizeof_WCHAR) false
    (by rw [pool_alloc_fst]; exact hrest)
  unfold pool_alloc at h
  rw [h]
  simp only [wv_free, heap_drop_last _ hs, driver__complete_irp, List.append_assoc,
    List.cons_append, List.nil_append, NULL, if_true]

/-- The identity operation answers and both buffers are allocated.  `m` is
the number of wide characters requested for the response buffer and copied
into it. -/
theorem pnp_query_id_success (env : Env) (st : State) (dev : Ptr) (irp : IRP) (s r : Ptr)
    (g g2 : List Cell) (rest2 : List (Ptr × List Cell)) (id m : Nat)
    (hpool : st.pool = (s, g) :: (r, g2) :: rest2) (hs0 : s ≠ NULL)
    (hs : heap_find st.heap s = none) (hr0 : r ≠ NULL) (hr : heap_find st.heap r = none)
    (hsr : s ≠ r)
    (hdev : load st dev env.layout.pnp_id = .ok (Cell.fn (Func.kind id)))
    (hn : (env.kind_pnp_id id dev irp.IdType).1 % 2 ^ 32 ≠ 0)
    (hm : m = (env.kind_pnp_id id dev irp.IdType).1 % 2 ^ 32 * sizeof_WCHAR %
      env.arch.size_mod / sizeof_WCHAR)
    (hm512 : m ≤ 512) :
    device__pnp_query_id env st dev irp =
      .ok (NTSTATUS.STATUS_SUCCESS, { irp with Information := r },
           ⟨st.heap ++ [⟨r, ((List.range 512).map fun i =>
                Cell.word ((env.kind_pnp_id id dev irp.IdType).2 i)).take m ++
                (stale_cells g2 m).drop m⟩],
            rest2,
            st.log ++ [Event.alloc 512 s, Event.call (Func.kind id) dev, Event.alloc m r,
              Event.free s, Event.complete r NTSTATUS.STATUS_SUCCESS]⟩) := by
  have hr0' : ¬ r = 0 := hr0
  simp only [device__pnp_query_id, wv_mallocz, pool_alloc, hpool, hs0, if_false, if_true,
    device__pnp_id_kind env st dev _ s _ _ _ id hdev hs, hn, wv_palloc, ← hm,
    List.length_replicate]
  simp only [hr0, hr0', if_false, if_true,
    Bool.false_eq_true, List.append_assoc, List.cons_append, List.nil_append]
  rw [RtlCopyMemory_two _ _ _ _ _ hs hr hsr
    (by rw [List.length_map, List.length_range]; exact hm512)
    (by rw [stale_cells_length])]
  simp only [wv_free, heap_drop_two_fst _ _ hs, driver__complete_irp, List.append_assoc,
    List.cons_append, List.nil_append]

/-- Whatever the layout, a word of a new device that is neither word 0 nor
one of the three stored members keeps the bytes the allocator handed out. -/
theorem device__create_stale (env : Env) (st : State) (p : Ptr) (g : List Cell)
    (rest : List (Ptr × List Cell)) (hL : env.layout.wf) (hpool : st.pool = (p, g) :: rest)
    (hp : p ≠ NULL) (hfresh : heap_find st.heap p = none) (i : Nat)
    (hi : i < env.layout.size) (h0 : i ≠ 0) (h1 : i ≠ env.layout.DriverObject)
    (h2 : i ≠ env.layout.create_pdo) (h3 : i ≠ env.layout.free) :
    ∃ st1, device__create env st = .ok (p, st1) ∧
      load st1 p i = .ok (g.getD i (Cell.word 0)) :=
  ⟨_, device__create_ok env st p g rest hL hpool hp hfresh,
    load_last _ _ _ _ _ hfresh (device__image_stale env g i hi h0 h1 h2 h3)⟩

/-- A count that fits the 512-element buffer is not changed by the
conversion to a byte count in `size_t` and back. -/
theorem byte_count_exact (arch : Arch) (n : Nat) (h : n ≤ 512) :
    n % 2 ^ 32 * sizeof_WCHAR % arch.size_mod / sizeof_WCHAR = n := by
  have h1 : n % 2 ^ 32 = n := Nat.mod_eq_of_lt (by omega)
  rw [h1]
  cases arch with
  | x86 =>
    have h2 : n * sizeof_WCHAR % Arch.x86.size_mod = n * sizeof_WCHAR :=
      Nat.mod_eq_of_lt (by simp only [sizeof_WCHAR, Arch.size_mod]; omega)
    rw [h2]; simp [sizeof_WCHAR]
  | x64 =>
    have h2 : n * sizeof_WCHAR % Arch.x64.size_mod = n * sizeof_WCHAR :=
      Nat.mod_eq_of_lt (by simp only [sizeof_WCHAR, Arch.size_mod]; omega)
    rw [h2]; simp [sizeof_WCHAR]

/-- Freeing the newest block through the default free operation. -/
theorem device__free_last (env : Env) {H : List Block} {p : Ptr} (cs : List Cell)
    (P : List (Ptr × List Cell)) (E : List Event) (hfresh : heap_find H p = none)
    (hfree : cs.get? env.layout.free = some (Cell.fn Func.device__free_dev_)) :
    device__free env ⟨H ++ [⟨p, cs⟩], P, E⟩ p =
      .ok ⟨H, P, E ++ [Event.call Func.device__free_dev_ p, Event.free p]⟩ := by
  simp only [device__free, load_last _ _ _ _ _ hfresh hfree, call_indirect, run_func,
    device__free_dev_, wv_free, heap_drop_last _ hfresh, List.append_assoc, List.cons_append,
    List.nil_append]

/-! ## Claims -/

/-- C1: for every call of `device__create` in which the allocation succeeds
(the pool returns a non-null, fresh block), the call returns that block, its
`ops.create_pdo` slot holds the default PDO creation operation, its `ops.free`
slot holds the default free operation, both are not null, and its
`DriverObject` member equals `driver__obj_ptr`. -/
theorem device__create_installs_defaults (env : Env) (st : State) (hL : env.layout.wf)
    (hp : (wv_malloc st env.layout.size).1 ≠ NULL)
    (hfresh : heap_find st.heap (wv_malloc st env.layout.size).1 = none) :
    ∃ st1, device__create env st = .ok ((wv_malloc st env.layout.size).1, st1) ∧
      load st1 (wv_malloc st env.layout.size).1 env.layout.create_pdo =
        .ok (Cell.fn Func.device__make_pdo_) ∧
      load st1 (wv_malloc st env.layout.size).1 env.layout.free =
        .ok (Cell.fn Func.device__free_dev_) ∧
      Cell.fn Func.device__make_pdo_ ≠ Cell.word NULL ∧
      Cell.fn Func.device__free_dev_ ≠ Cell.word NULL ∧
      load st1 (wv_malloc st env.layout.size).1 env.layout.DriverObject =
        .ok (Cell.word env.driver__obj_ptr) := by
  obtain ⟨g, rest, hpool⟩ := pool_alloc_some st env.layout.size false hp
  have e : (wv_malloc st env.layout.size).1 = (pool_alloc st env.layout.size false).1 := rfl
  rw [e] at hfresh ⊢
  refine ⟨_, device__create_ok env st _ g rest hL hpool hp hfresh, ?_, ?_, ?_, ?_, ?_⟩
  · exact load_last _ _ _ _ _ hfresh (device__image_create_pdo env g hL)
  · exact load_last _ _ _ _ _ hfresh (device__image_free env g hL)
  · exact fun h => Cell.noConfusion h
  · exact fun h => Cell.noConfusion h
  · exact load_last _ _ _ _ _ hfresh (device__image_DriverObject env g hL)

/-- Witness for C1: `device__create` on `st_new` over `layout8`. -/
theorem device__create_installs_defaults_witness :
    ∃ st1, device__create env8 st_new = .ok (100, st1) ∧
      load st1 100 4 = .ok (Cell.fn Func.device__make_pdo_) ∧
      load st1 100 7 = .ok (Cell.fn Func.device__free_dev_) ∧
      Cell.fn Func.device__make_pdo_ ≠ Cell.word NULL ∧
      Cell.fn Func.device__free_dev_ ≠ Cell.word NULL ∧
      load st1 100 3 = .ok (Cell.word 77) :=
  device__create_installs_defaults env8 st_new (by decide) (by decide) (by decide)

/-- C2: `device__create` does not return a zero-initialised device.  On
`st_new` the allocator hands back a block of non-zero words; after the call
only word 0 has been cleared: `ops.close` (word 6), `ops.pnp_id` (word 5) and
the other members (words 1 and 2) still hold what the allocator handed
back. -/
theorem device__create_keeps_stale_words :
    ∃ st1, device__create env8 st_new = .ok (100, st1) ∧
      load st1 100 0 = .ok (Cell.word 0) ∧
      load st1 100 layout8.close = .ok (Cell.word 17) ∧
      load st1 100 layout8.pnp_id = .ok (Cell.word 16) ∧
      load st1 100 1 = .ok (Cell.word 12) ∧
      load st1 100 2 = .ok (Cell.word 13) :=
  ⟨_, rfl, rfl, rfl, rfl, rfl, rfl⟩

/-- C3, as stated, fails: a device fresh from `device__create` whose close
slot is empty (the block happened to hold zeros) is not rejected by
`device__close`; the call dispatches through the empty slot. -/
theorem device__close_not_rejected :
    ∃ st1, device__create env8 st_new_zero = .ok (100, st1) ∧
      load st1 100 layout8.close = .ok (Cell.word 0) ∧
      device__close env8 st1 100 = .error Fault.null_call :=
  ⟨_, rfl, rfl, rfl⟩

/-- C3, amended: `device__close` validates nothing and dispatches
unconditionally through `ops.close`.  On a device whose close slot is empty
the call goes through the null slot; on a device whose close slot holds a
function, exactly that function is called on the device, once. -/
theorem device__close_dispatches (env : Env) (st : State) (dev : Ptr) :
    (load st dev env.layout.close = .ok (Cell.word 0) →
      device__close env st dev = .error Fault.null_call) ∧
    (∀ f, load st dev env.layout.close = .ok (Cell.fn f) →
      device__close env st dev =
        .ok (run_func env f dev { st with log := st.log ++ [Event.call f dev] }).2) := by
  constructor
  · intro h
    simp [device__close, h, call_indirect]
  · intro f h
    simp [device__close, h, call_indirect]

/-- Witness for C3: an empty close slot, and a close slot holding operation 2
of a concrete kind. -/
theorem device__close_dispatches_witness :
    device__close env8 (st_dev (Cell.word 0) (Cell.word 0) []) 100 = .error Fault.null_call ∧
    device__close env8 (st_dev (Cell.word 0) (Cell.fn (Func.kind 2)) []) 100 =
      .ok { heap := (st_dev (Cell.word 0) (Cell.fn (Func.kind 2)) []).heap
            pool := []
            log := [Event.call (Func.kind 2) 100] } :=
  ⟨(device__close_dispatches env8 (st_dev (Cell.word 0) (Cell.word 0) []) 100).1 rfl,
   (device__close_dispatches env8 (st_dev (Cell.word 0) (Cell.fn (Func.kind 2)) []) 100).2
     (Func.kind 2) rfl⟩

/-- C4: in `device__pnp_query_id`, when the identity operation of the device
returns a count `n` with `1 ≤ n ≤ 512` and both allocations succeed (the pool
answers with the fresh blocks `s` and `r`), the identity operation leaves its
answer in the scratch buffer `s`, the request is completed with
`STATUS_SUCCESS` and `IoStatus.Information = r`, the response buffer `r` has
exactly `n` wide characters, equal to the first `n` wide characters of the
scratch buffer, and `r` is still live on return (the only release is that of
the scratch buffer). -/
theorem pnp_query_id_response (env : Env) (st : State) (dev : Ptr) (irp : IRP) (s r : Ptr)
    (g g2 : List Cell) (rest2 : List (Ptr × List Cell)) (id n : Nat)
    (hpool : st.pool = (s, g) :: (r, g2) :: rest2) (hs0 : s ≠ NULL)
    (hs : heap_find st.heap s = none) (hr0 : r ≠ NULL) (hr : heap_find st.heap r = none)
    (hsr : s ≠ r)
    (hdev : load st dev env.layout.pnp_id = .ok (Cell.fn (Func.kind id)))
    (hcount : (env.kind_pnp_id id dev irp.IdType).1 = n) (h1 : 1 ≤ n) (h512 : n ≤ 512) :
    ∃ scratch st1,
      device__pnp_id env (wv_mallocz st 512).2 dev irp.IdType s =
        .ok (n, ⟨st.heap ++ [⟨s, scratch⟩], (r, g2) :: rest2,
                 st.log ++ [Event.alloc 512 s, Event.call (Func.kind id) dev]⟩) ∧
      scratch.length = 512 ∧
      device__pnp_query_id env st dev irp =
        .ok (NTSTATUS.STATUS_SUCCESS, { irp with Information := r }, st1) ∧
      st1.heap = st.heap ++ [⟨r, scratch.take n⟩] ∧
      heap_find st1.heap r = some ⟨r, scratch.take n⟩ ∧
      (scratch.take n).length = n ∧
      st1.log = st.log ++ [Event.alloc 512 s, Event.call (Func.kind id) dev, Event.alloc n r,
        Event.free s, Event.complete r NTSTATUS.STATUS_SUCCESS] := by
  have hb := byte_count_exact env.arch n h512
  have hn : (env.kind_pnp_id id dev irp.IdType).1 % 2 ^ 32 ≠ 0 := by
    rw [hcount, Nat.mod_eq_of_lt (by omega)]; omega
  have hmod : (env.kind_pnp_id id dev irp.IdType).1 % 2 ^ 32 = n := by
    rw [hcount, Nat.mod_eq_of_lt (by omega)]
  have hE := pnp_query_id_success env st dev irp s r g g2 rest2 id n hpool hs0 hs hr0 hr hsr
    hdev hn (by rw [hcount]; exact hb.symm) h512
  have hdrop : (stale_cells g2 n).drop n = [] := by
    apply List.drop_eq_nil_of_le; rw [stale_cells_length]
  rw [hdrop, List.append_nil] at hE
  refine ⟨_, _, ?_, ?_, hE, rfl, ?_, ?_, rfl⟩
  · have hK := device__pnp_id_kind env st dev irp.IdType s (List.replicate 512 (Cell.word 0))
      ((r, g2) :: rest2) (st.log ++ [Event.alloc 512 s]) id hdev hs
    rw [hmod, List.length_replicate, List.append_assoc] at hK
    simp only [wv_mallocz, pool_alloc, hpool, hs0, if_false, if_true]
    exact hK
  · rw [List.length_map, List.length_range]
  · exact heap_find_last _ hr
  · rw [List.length_take, List.length_map, List.length_range]; omega

/-- Witness for C4: identity operation 0 of `env8` answers with three wide
characters. -/
theorem pnp_query_id_response_witness :
    ∃ scratch st1,
      device__pnp_id env8
          (wv_mallocz (st_dev (Cell.fn (Func.kind 0)) (Cell.word 0)
            [(200, []), (300, [Cell.word 5])]) 512).2 100 1 200 =
        .ok (3, ⟨(st_dev (Cell.fn (Func.kind 0)) (Cell.word 0) []).heap ++ [⟨200, scratch⟩],
                 (300, [Cell.word 5]) :: [],
                 [] ++ [Event.alloc 512 200, Event.call (Func.kind 0) 100]⟩) ∧
      scratch.length = 512 ∧
      device__pnp_query_id env8
          (st_dev (Cell.fn (Func.kind 0)) (Cell.word 0) [(200, []), (300, [Cell.word 5])])
          100 ⟨1, 55⟩ =
        .ok (NTSTATUS.STATUS_SUCCESS, ⟨1, 300⟩, st1) ∧
      st1.heap = (st_dev (Cell.fn (Func.kind 0)) (Cell.word 0) []).heap ++
        [⟨300, scratch.take 3⟩] ∧
      heap_find st1.heap 300 = some ⟨300, scratch.take 3⟩ ∧
      (scratch.take 3).length = 3 ∧
      st1.log = [] ++ [Event.alloc 512 200, Event.call (Func.kind 0) 100, Event.alloc 3 300,
        Event.free 200, Event.complete 300 NTSTATUS.STATUS_SUCCESS] :=
  pnp_query_id_response env8
    (st_dev (Cell.fn (Func.kind 0)) (Cell.word 0) [(200, []), (300, [Cell.word 5])])
    100 ⟨1, 55⟩ 200 300 [] [Cell.word 5] [] 0 3 rfl (by decide) rfl (by decide) rfl (by decide)
    rfl rfl (by decide) (by decide)

/-- C5: in `device__pnp_query_id`, whenever the scratch allocation succeeds
(the pool answers with the fresh block `s`) and the identity query yields a
count of 0, the request is completed with `STATUS_NOT_SUPPORTED` and
`IoStatus.Information = 0`, and no response buffer is allocated: the only pool
request is the one for the scratch buffer, the pool keeps its next answer and
the heap is what it was.  The count is 0 either because the device has no
`pnp_id` operation, in which case `device__pnp_id` returns 0 and dispatches
nothing, or because its `pnp_id` operation returns 0. -/
theorem pnp_query_id_unsupported (env : Env) (st : State) (dev : Ptr) (irp : IRP) (s : Ptr)
    (g : List Cell) (rest : List (Ptr × List Cell))
    (hpool : st.pool = (s, g) :: rest) (hs0 : s ≠ NULL) (hs : heap_find st.heap s = none) :
    (load st dev env.layout.pnp_id = .ok (Cell.word 0) →
      device__pnp_id env (wv_mallocz st 512).2 dev irp.IdType s = .ok (0, (wv_mallocz st 512).2) ∧
      device__pnp_query_id env st dev irp =
        .ok (NTSTATUS.STATUS_NOT_SUPPORTED, { irp with Information := 0 },
             ⟨st.heap, rest,
              st.log ++ [Event.alloc 512 s, Event.free s,
                Event.complete 0 NTSTATUS.STATUS_NOT_SUPPORTED]⟩)) ∧
    (∀ id, load st dev env.layout.pnp_id = .ok (Cell.fn (Func.kind id)) →
      (env.kind_pnp_id id dev irp.IdType).1 = 0 →
      device__pnp_query_id env st dev irp =
        .ok (NTSTATUS.STATUS_NOT_SUPPORTED, { irp with Information := 0 },
             ⟨st.heap, rest,
              st.log ++ [Event.alloc 512 s, Event.call (Func.kind id) dev, Event.free s,
                Event.complete 0 NTSTATUS.STATUS_NOT_SUPPORTED]⟩)) := by
  refine ⟨fun hdev => ⟨?_, pnp_query_id_no_op env st dev irp s g rest hpool hs0 hs hdev⟩,
    fun id hdev h0 =>
      pnp_query_id_zero env st dev irp s g rest id hpool hs0 hs hdev (by rw [h0]; rfl)⟩
  apply device__pnp_id_null
  simp only [wv_mallocz, pool_alloc, hpool, hs0, if_false]
  exact load_append _ _ _ hdev

/-- Witness for C5: a device without identity operation, and a device whose
identity operation 1 answers with a count of 0. -/
theorem pnp_query_id_unsupported_witness :
    (device__pnp_id env8 (wv_mallocz (st_dev (Cell.word 0) (Cell.word 0) [(200, [])]) 512).2
        100 1 200 =
      .ok (0, (wv_mallocz (st_dev (Cell.word 0) (Cell.word 0) [(200, [])]) 512).2) ∧
     device__pnp_query_id env8 (st_dev (Cell.word 0) (Cell.word 0) [(200, [])]) 100 ⟨1, 55⟩ =
      .ok (NTSTATUS.STATUS_NOT_SUPPORTED, ⟨1, 0⟩,
           ⟨(st_dev (Cell.word 0) (Cell.word 0) [(200, [])]).heap, [],
            [] ++ [Event.alloc 512 200, Event.free 200,
              Event.complete 0 NTSTATUS.STATUS_NOT_SUPPORTED]⟩)) ∧
    device__pnp_query_id env8 (st_dev (Cell.fn (Func.kind 1)) (Cell.word 0) [(200, [])])
        100 ⟨1, 55⟩ =
      .ok (NTSTATUS.STATUS_NOT_SUPPORTED, ⟨1, 0⟩,
           ⟨(st_dev (Cell.fn (Func.kind 1)) (Cell.word 0) [(200, [])]).heap, [],
            [] ++ [Event.alloc 512 200, Event.call (Func.kind 1) 100, Event.free 200,
              Event.complete 0 NTSTATUS.STATUS_NOT_SUPPORTED]⟩) :=
  ⟨(pnp_query_id_unsupported env8 (st_dev (Cell.word 0) (Cell.word 0) [(200, [])]) 100 ⟨1, 55⟩
      200 [] [] rfl (by decide) rfl).1 rfl,
   (pnp_query_id_unsupported env8 (st_dev (Cell.fn (Func.kind 1)) (Cell.word 0) [(200, [])])
      100 ⟨1, 55⟩ 200 [] [] rfl (by decide) rfl).2 1 rfl rfl⟩

/-- C7: `device__pnp_query_id` completes the request with
`STATUS_INSUFFICIENT_RESOURCES` in both allocation-failure cases.  When the
scratch allocation fails, the events of the call are the failed request and
the completion: the identity operation of the device is never invoked.  When
the scratch buffer `s` was allocated, the identity operation returned a
non-zero count and the allocation of the response buffer fails, the scratch
buffer is released before the completion.  In both cases the live set on
return is the one before the call. -/
theorem pnp_query_id_insufficient_resources (env : Env) (st : State) (dev : Ptr) (irp : IRP) :
    ((wv_mallocz st 512).1 = NULL →
      ∃ st1, device__pnp_query_id env st dev irp =
          .ok (NTSTATUS.STATUS_INSUFFICIENT_RESOURCES, irp, st1) ∧
        st1.log = st.log ++ [Event.alloc 512 NULL,
          Event.complete irp.Information NTSTATUS.STATUS_INSUFFICIENT_RESOURCES] ∧
        (∀ f d, Event.call f d ∉ [Event.alloc 512 NULL,
          Event.complete irp.Information NTSTATUS.STATUS_INSUFFICIENT_RESOURCES]) ∧
        st1.heap = st.heap) ∧
    (∀ s g rest id, st.pool = (s, g) :: rest → s ≠ NULL → heap_find st.heap s = none →
      pool_next rest = NULL →
      load st dev env.layout.pnp_id = .ok (Cell.fn (Func.kind id)) →
      (env.kind_pnp_id id dev irp.IdType).1 % 2 ^ 32 ≠ 0 →
      ∃ st1 m, device__pnp_query_id env st dev irp =
          .ok (NTSTATUS.STATUS_INSUFFICIENT_RESOURCES, { irp with Information := 0 }, st1) ∧
        st1.log = st.log ++ [Event.alloc 512 s, Event.call (Func.kind id) dev,
          Event.alloc m NULL, Event.free s,
          Event.complete 0 NTSTATUS.STATUS_INSUFFICIENT_RESOURCES] ∧
        st1.heap = st.heap) := by
  constructor
  · intro h
    refine ⟨_, pnp_query_id_no_scratch env st dev irp h, rfl, ?_, rfl⟩
    intro f d hmem
    simp at hmem
  · intro s g rest id hpool hs0 hs hrest hdev hn
    exact ⟨_, _, pnp_query_id_no_response env st dev irp s g rest id hpool hs0 hs hdev hn hrest,
      rfl, rfl⟩

/-- Witness for C7: an exhausted pool, and a pool exhausted after the scratch
buffer. -/
theorem pnp_query_id_insufficient_resources_witness :
    (∃ st1, device__pnp_query_id env8 st_query_dry 100 ⟨1, 55⟩ =
        .ok (NTSTATUS.STATUS_INSUFFICIENT_RESOURCES, ⟨1, 55⟩, st1) ∧
      st1.log = st_query_dry.log ++ [Event.alloc 512 NULL,
        Event.complete 55 NTSTATUS.STATUS_INSUFFICIENT_RESOURCES] ∧
      (∀ f d, Event.call f d ∉ [Event.alloc 512 NULL,
        Event.complete 55 NTSTATUS.STATUS_INSUFFICIENT_RESOURCES]) ∧
      st1.heap = st_query_dry.heap) ∧
    (∃ st1 m, device__pnp_query_id env8 st_query_short 100 ⟨1, 55⟩ =
        .ok (NTSTATUS.STATUS_INSUFFICIENT_RESOURCES, ⟨1, 0⟩, st1) ∧
      st1.log = st_query_short.log ++ [Event.alloc 512 200, Event.call (Func.kind 0) 100,
        Event.alloc m NULL, Event.free 200,
        Event.complete 0 NTSTATUS.STATUS_INSUFFICIENT_RESOURCES] ∧
      st1.heap = st_query_short.heap) :=
  ⟨(pnp_query_id_insufficient_resources env8 st_query_dry 100 ⟨1, 55⟩).1 rfl,
   (pnp_query_id_insufficient_resources env8 st_query_short 100 ⟨1, 55⟩).2 200 [] [] 0 rfl
     (by decide) rfl rfl rfl (by decide)⟩

/-- C8: `device__get` yields `NULL` for every handle that has no associated
device, and does so without an invalid access (the result is a value, not a
fault): for the null handle, and for every non-null handle whose extension
area has an empty device slot. -/
theorem device__get_not_found (os : Objects) (dev_obj : Ptr) :
    (dev_obj = NULL → device__get os dev_obj = .ok NULL) ∧
    (∀ dev_ext, dev_obj ≠ NULL → os.DeviceExtension dev_obj = some dev_ext →
      dev_ext ≠ NULL → os.device dev_ext = some NULL →
      device__get os dev_obj = .ok NULL) := by
  constructor
  · intro h
    simp [device__get, h]
  · intro dev_ext h0 hext he0 hdev
    simp [device__get, deref, h0, hext, he0, hdev]

/-- Witness for C8: the null handle, and the handle 10 of `os_empty`. -/
theorem device__get_not_found_witness :
    device__get os_empty NULL = .ok NULL ∧ device__get os_empty 10 = .ok NULL :=
  ⟨(device__get_not_found os_empty NULL).1 rfl,
   (device__get_not_found os_empty 10).2 20 (by decide) rfl (by decide) rfl⟩

/-- C9: over the explicit set of live allocations, for every state in which
the allocation succeeds (the pool returns a non-null, fresh block),
`device__free(device__create())` returns: the new device is live after
`device__create`, `device__free` dispatches to the default free operation
`device__free_dev_`, the block of the device is released exactly once, and the
set of live allocations afterwards equals the set before `device__create`. -/
theorem device__free_create (env : Env) (st : State) (hL : env.layout.wf)
    (hp : (wv_malloc st env.layout.size).1 ≠ NULL)
    (hfresh : heap_find st.heap (wv_malloc st env.layout.size).1 = none) :
    ∃ dev st1 st2 cells,
      dev = (wv_malloc st env.layout.size).1 ∧
      device__create env st = .ok (dev, st1) ∧
      heap_find st1.heap dev = some ⟨dev, cells⟩ ∧
      device__free env st1 dev = .ok st2 ∧
      st2.log = st1.log ++ [Event.call Func.device__free_dev_ dev, Event.free dev] ∧
      st1.log = st.log ++ [Event.alloc env.layout.size dev] ∧
      st2.heap = st.heap := by
  obtain ⟨g, rest, hpool⟩ := pool_alloc_some st env.layout.size false hp
  have e : (wv_malloc st env.layout.size).1 = (pool_alloc st env.layout.size false).1 := rfl
  rw [e] at hfresh ⊢
  exact ⟨_, _, _, _, rfl, device__create_ok env st _ g rest hL hpool hp hfresh,
    heap_find_last _ hfresh,
    device__free_last env _ _ _ hfresh (device__image_free env g hL), rfl, rfl, rfl⟩

/-- Witness for C9: creating and freeing a device on `st_new`. -/
theorem device__free_create_witness :
    ∃ dev st1 st2 cells,
      dev = (wv_malloc st_new env8.layout.size).1 ∧
      device__create env8 st_new = .ok (dev, st1) ∧
      heap_find st1.heap dev = some ⟨dev, cells⟩ ∧
      device__free env8 st1 dev = .ok st2 ∧
      st2.log = st1.log ++ [Event.call Func.device__free_dev_ dev, Event.free dev] ∧
      st1.log = st_new.log ++ [Event.alloc env8.layout.size dev] ∧
      st2.heap = st_new.heap :=
  device__free_create env8 st_new (by decide) (by decide) (by decide)

/-- C10: for every device whose `create_pdo` slot holds the default operation,
whatever its other members are, `device__create_pdo` returns `NULL` (and
changes nothing but the record of the call); this is so for every device
returned by `device__create`; and for any device, `device__create_pdo` returns
exactly what the function in its `create_pdo` slot returns. -/
theorem device__create_pdo_dispatch (env : Env) (st : State) (dev : Ptr) :
    (load st dev env.layout.create_pdo = .ok (Cell.fn Func.device__make_pdo_) →
      device__create_pdo env st dev =
        .ok (NULL, { st with log := st.log ++ [Event.call Func.device__make_pdo_ dev] })) ∧
    (env.layout.wf → (wv_malloc st env.layout.size).1 ≠ NULL →
      heap_find st.heap (wv_malloc st env.layout.size).1 = none →
      ∃ d st1, device__create env st = .ok (d, st1) ∧ d ≠ NULL ∧
        device__create_pdo env st1 d =
          .ok (NULL, { st1 with log := st1.log ++ [Event.call Func.device__make_pdo_ d] })) ∧
    (∀ f, load st dev env.layout.create_pdo = .ok (Cell.fn f) →
      device__create_pdo env st dev =
        .ok (run_func env f dev { st with log := st.log ++ [Event.call f dev] })) := by
  refine ⟨?_, ?_, ?_⟩
  · intro h
    simp only [device__create_pdo, h, call_indirect, run_func, device__make_pdo_]
  · intro hL hp hfresh
    obtain ⟨g, rest, hpool⟩ := pool_alloc_some st env.layout.size false hp
    have e : (wv_malloc st env.layout.size).1 = (pool_alloc st env.layout.size false).1 := rfl
    rw [e] at hfresh hp
    refine ⟨_, _, device__create_ok env st _ g rest hL hpool hp hfresh, hp, ?_⟩
    simp only [device__create_pdo,
      load_last _ _ _ _ _ hfresh (device__image_create_pdo env g hL), call_indirect, run_func,
      device__make_pdo_]
  · intro f h
    simp only [device__create_pdo, h, call_indirect]

/-- Witness for C10: a device holding the default, a device fresh from
`device__create`, and a device whose slot holds operation 4 of a concrete
kind, which returns 9. -/
theorem device__create_pdo_dispatch_witness :
    device__create_pdo env8 st_query 100 =
      .ok (NULL, { st_query with
        log := st_query.log ++ [Event.call Func.device__make_pdo_ 100] }) ∧
    (∃ d st1, device__create env8 st_new = .ok (d, st1) ∧ d ≠ NULL ∧
      device__create_pdo env8 st1 d =
        .ok (NULL, { st1 with log := st1.log ++ [Event.call Func.device__make_pdo_ d] })) ∧
    device__create_pdo env8
        ⟨[⟨100, [Cell.word 0, Cell.word 0, Cell.word 0, Cell.word 77,
            Cell.fn (Func.kind 4)]⟩], [], []⟩ 100 =
      .ok (9, ⟨[⟨100, [Cell.word 0, Cell.word 0, Cell.word 0, Cell.word 77,
            Cell.fn (Func.kind 4)]⟩], [], [Event.call (Func.kind 4) 100]⟩) :=
  ⟨(device__create_pdo_dispatch env8 st_query 100).1 rfl,
   (device__create_pdo_dispatch env8 st_new 100).2.1 (by decide) (by decide) (by decide),
   (device__create_pdo_dispatch env8
      ⟨[⟨100, [Cell.word 0, Cell.word 0, Cell.word 0, Cell.word 77,
          Cell.fn (Func.kind 4)]⟩], [], []⟩ 100).2.2 (Func.kind 4) rfl⟩

/-! ## Byte swap lemmas -/

theorem swap_mask_high (x : Nat) : (x <<< 8) &&& 0xff00 = (x % 256) * 256 := by
  have h1 : (0xff00 : Nat) = (2 ^ 8 - 1) <<< 8 := by decide
  have h2 : (x % 256) * 256 = (x % 2 ^ 8) <<< 8 := by rw [Nat.shiftLeft_eq]; rfl
  rw [h1, h2]
  apply Nat.eq_of_testBit_eq
  intro i
  simp only [Nat.testBit_and, Nat.testBit_shiftLeft, Nat.testBit_two_pow_sub_one,
    Nat.testBit_mod_two_pow]
  by_cases h : 8 ≤ i <;> by_cases h3 : i - 8 < 8 <;> simp [h, h3]

theorem swap_mask_low (x : Nat) : (x >>> 8) &&& 0xff = (x / 256) % 256 := by
  have h1 : (0xff : Nat) = 2 ^ 8 - 1 := by decide
  rw [h1, Nat.and_pow_two_sub_one_eq_mod, Nat.shiftRight_eq_div_pow]

theorem swap_or_add (a b : Nat) (hb : b < 256) : (a * 256) ||| b = a * 256 + b := by
  have h := Nat.mul_add_lt_is_or (i := 8) hb a
  rw [Nat.mul_comm] at h
  exact h.symm

/-- The value of the swap expression for any argument: the low octet moves
up, the second octet moves down, everything above is dropped. -/
theorem htons_value (x : Nat) : htons x = (x % 256) * 256 + (x / 256) % 256 := by
  unfold htons
  rw [swap_mask_high, swap_mask_low, swap_or_add _ _ (Nat.mod_lt _ (by decide))]
  apply Nat.mod_eq_of_lt
  have h1 : x % 256 < 256 := Nat.mod_lt _ (by decide)
  have h2 : x / 256 % 256 < 256 := Nat.mod_lt _ (by decide)
  omega

theorem ntohs_value (x : Nat) : ntohs x = (x % 256) * 256 + (x / 256) % 256 :=
  htons_value x

/-! ## Claims, continued -/

/-- C11: `htons` and `ntohs` are the same 16-bit octet swap.  For every 16-bit
value `x`, `htons x = ntohs x = (x mod 256) * 256 + x div 256`; and for every
wider argument the result is a 16-bit value that depends only on the low 16
bits of the argument. -/
theorem htons_ntohs_swap (x : Nat) :
    (x < 2 ^ 16 →
      htons x = (x % 256) * 256 + x / 256 ∧ ntohs x = (x % 256) * 256 + x / 256) ∧
    htons x = ntohs x ∧
    htons x < 2 ^ 16 ∧ ntohs x < 2 ^ 16 ∧
    htons x = htons (x % 2 ^ 16) ∧ ntohs x = ntohs (x % 2 ^ 16) := by
  have hv : ∀ y, (y % 2 ^ 16) % 256 * 256 + (y % 2 ^ 16) / 256 % 256 =
      y % 256 * 256 + y / 256 % 256 := by
    intro y; omega
  have hlt : x % 256 * 256 + x / 256 % 256 < 2 ^ 16 := by omega
  refine ⟨fun h => ?_, rfl, ?_, ?_, ?_, ?_⟩
  · have hd : x / 256 % 256 = x / 256 := Nat.mod_eq_of_lt (by omega)
    rw [ntohs_value, htons_value, hd]
    exact ⟨rfl, rfl⟩
  · rw [htons_value]; exact hlt
  · rw [ntohs_value]; exact hlt
  · rw [htons_value, htons_value, hv]
  · rw [ntohs_value, ntohs_value, hv]

/-- Witness for C11: the swap of `0x1234`. -/
theorem htons_ntohs_swap_witness :
    htons 0x1234 = (0x1234 % 256) * 256 + 0x1234 / 256 ∧
    ntohs 0x1234 = (0x1234 % 256) * 256 + 0x1234 / 256 :=
  (htons_ntohs_swap 0x1234).1 (by decide)

/-- C12: `device__create` fails only on allocation exhaustion.  When the
allocation returns `NULL`, `device__create` returns `NULL` and initialises
nothing: the heap is untouched and the only event is the failed request.
Whenever `device__create` returns `NULL`, the allocation returned `NULL` and
the heap is untouched.  And when the allocation succeeds with a fresh block,
`device__create` returns that block, which is not `NULL`. -/
theorem device__create_null_iff (env : Env) (st : State) :
    ((wv_malloc st env.layout.size).1 = NULL →
      device__create env st =
        .ok (NULL, ⟨st.heap, st.pool.tail, st.log ++ [Event.alloc env.layout.size NULL]⟩)) ∧
    (∀ st1, device__create env st = .ok (NULL, st1) →
      (wv_malloc st env.layout.size).1 = NULL ∧ st1.heap = st.heap) ∧
    (env.layout.wf → (wv_malloc st env.layout.size).1 ≠ NULL →
      heap_find st.heap (wv_malloc st env.layout.size).1 = none →
      ∃ st1, device__create env st = .ok ((wv_malloc st env.layout.size).1, st1)) := by
  have hnull : (wv_malloc st env.layout.size).1 = NULL →
      device__create env st =
        .ok (NULL, ⟨st.heap, st.pool.tail, st.log ++ [Event.alloc env.layout.size NULL]⟩) := by
    intro h
    have h2 := pool_alloc_null st env.layout.size false h
    simp only [device__create, wv_malloc, h2, if_true]
  refine ⟨hnull, ?_, ?_⟩
  · intro st1 hret
    by_cases h : (wv_malloc st env.layout.size).1 = NULL
    · rw [hnull h] at hret
      injection hret with hret
      injection hret with _ hst
      exact ⟨h, by rw [← hst]⟩
    · exfalso
      simp only [device__create] at hret
      rw [if_neg h] at hret
      cases hinit : device__init env (wv_malloc st env.layout.size).2
          (wv_malloc st env.layout.size).1 with
      | error e => rw [hinit] at hret; injection hret
      | ok st2 =>
        rw [hinit] at hret
        injection hret with hret
        injection hret with hdev _
        exact h hdev
  · intro hL hp hfresh
    obtain ⟨g, rest, hpool⟩ := pool_alloc_some st env.layout.size false hp
    have e : (wv_malloc st env.layout.size).1 = (pool_alloc st env.layout.size false).1 := rfl
    rw [e] at hfresh ⊢
    exact ⟨_, device__create_ok env st _ g rest hL hpool hp hfresh⟩

/-- Witness for C12: an exhausted pool, a created device whose address is not
null, and a successful allocation. -/
theorem device__create_null_iff_witness :
    device__create env8 st_query_dry =
      .ok (NULL, ⟨st_query_dry.heap, st_query_dry.pool.tail,
        st_query_dry.log ++ [Event.alloc env8.layout.size NULL]⟩) ∧
    ((wv_malloc st_query_dry env8.layout.size).1 = NULL ∧
      (⟨st_query_dry.heap, [], [Event.alloc 8 NULL]⟩ : State).heap = st_query_dry.heap) ∧
    (∃ st1, device__create env8 st_new = .ok ((wv_malloc st_new env8.layout.size).1, st1)) :=
  ⟨(device__create_null_iff env8 st_query_dry).1 rfl,
   (device__create_null_iff env8 st_query_dry).2.1 ⟨st_query_dry.heap, [], [Event.alloc 8 NULL]⟩
     rfl,
   (device__create_null_iff env8 st_new).2.2 (by decide) (by decide) (by decide)⟩

theorem RtlCopyMemory_two_overrun {H : List Block} {s r : Ptr} (cs cr : List Cell)
    (P : List (Ptr × List Cell)) (E : List Event) (m : Nat)
    (hs : heap_find H s = none) (hr : heap_find H r = none) (hne : s ≠ r)
    (h1 : cs.length < m) :
    RtlCopyMemory ⟨H ++ [⟨s, cs⟩, ⟨r, cr⟩], P, E⟩ r s m = .error Fault.bad_access := by
  have h2 : ¬ m ≤ cs.length := by omega
  simp only [RtlCopyMemory, heap_find_two_fst _ _ hs, heap_find_two_snd _ _ hr hne, h2,
    false_and, if_false]

/-- The identity operation answers with more wide characters than the scratch
buffer holds and both buffers are allocated: the copy reads past the end of
the scratch buffer. -/
theorem pnp_query_id_overrun (env : Env) (st : State) (dev : Ptr) (irp : IRP) (s r : Ptr)
    (g g2 : List Cell) (rest2 : List (Ptr × List Cell)) (id m : Nat)
    (hpool : st.pool = (s, g) :: (r, g2) :: rest2) (hs0 : s ≠ NULL)
    (hs : heap_find st.heap s = none) (hr0 : r ≠ NULL) (hr : heap_find st.heap r = none)
    (hsr : s ≠ r)
    (hdev : load st dev env.layout.pnp_id = .ok (Cell.fn (Func.kind id)))
    (hn : (env.kind_pnp_id id dev irp.IdType).1 % 2 ^ 32 ≠ 0)
    (hm : m = (env.kind_pnp_id id dev irp.IdType).1 % 2 ^ 32 * sizeof_WCHAR %
      env.arch.size_mod / sizeof_WCHAR)
    (hm512 : 512 < m) :
    device__pnp_query_id env st dev irp = .error Fault.bad_access := by
  have hr1 : ¬ r = 0 := hr0
  simp only [device__pnp_query_id, wv_mallocz, pool_alloc, hpool, hs0, if_false, if_true,
    device__pnp_id_kind env st dev _ s _ _ _ id hdev hs, hn, wv_palloc, ← hm,
    List.length_replicate]
  simp only [hr0, hr1, if_false, if_true,
    Bool.false_eq_true, List.append_assoc, List.cons_append, List.nil_append]
  rw [RtlCopyMemory_two_overrun _ _ _ _ _ hs hr hsr
    (by rw [List.length_map, List.length_range]; exact hm512)]

/-- C13, as stated, fails: the handler never checks the count.  With an
identity operation that returns 513, the copy reads past the end of the
512-element scratch buffer; and on the 32-bit target, with an identity
operation that returns `2 ^ 31 + 1`, the byte length wraps to 2, so that a
single wide character is allocated and copied. -/
theorem pnp_query_id_count_unchecked :
    device__pnp_query_id env_over st_query 100 ⟨1, 55⟩ = .error Fault.bad_access ∧
    (env_wrap.kind_pnp_id 0 100 1).1 % 2 ^ 32 * sizeof_WCHAR % env_wrap.arch.size_mod = 2 ∧
    (env_wrap.kind_pnp_id 0 100 1).1 * sizeof_WCHAR = 2 ^ 32 + 2 ∧
    ∃ st1, device__pnp_query_id env_wrap st_query 100 ⟨1, 55⟩ =
        .ok (NTSTATUS.STATUS_SUCCESS, ⟨1, 300⟩, st1) ∧
      st1.log = [Event.alloc 512 200, Event.call (Func.kind 0) 100, Event.alloc 1 300,
        Event.free 200, Event.complete 300 NTSTATUS.STATUS_SUCCESS] := by
  refine ⟨?_, by decide, by decide, ?_⟩
  · exact pnp_query_id_overrun env_over st_query 100 ⟨1, 55⟩ 200 300 [] [Cell.word 5] [] 0 513
      rfl (by decide) rfl (by decide) rfl (by decide) rfl (by decide) (by decide) (by decide)
  · exact ⟨_, pnp_query_id_success env_wrap st_query 100 ⟨1, 55⟩ 200 300 [] [Cell.word 5] [] 0 1
      rfl (by decide) rfl (by decide) rfl (by decide) rfl (by decide) (by decide) (by decide),
      rfl⟩

/-- C13, amended: in `device__pnp_query_id` the count `n` returned by the
identity operation (a non-zero unsigned 32-bit value) is used unchecked, and
`m`, the byte length divided by `sizeof (WCHAR)`, is the number of wide
characters allocated and copied.  The byte length `n * sizeof (WCHAR)` does
not wrap exactly when the target is 64-bit or `n < 2 ^ 31`, and then `m = n`;
in particular `m = n` for every `n ≤ 512`.  With both buffers allocated, when
`m ≤ 512` the copy reads only inside the 512-element scratch buffer: the
handler returns with `STATUS_SUCCESS` and the response buffer holds exactly
`m` wide characters, the first `m` of the scratch buffer as the identity
operation left it; when `m > 512` the copy reads past the scratch buffer. -/
theorem pnp_query_id_copy_in_bounds (env : Env) (st : State) (dev : Ptr) (irp : IRP)
    (s r : Ptr) (g g2 : List Cell) (rest2 : List (Ptr × List Cell)) (id n m : Nat)
    (hpool : st.pool = (s, g) :: (r, g2) :: rest2) (hs0 : s ≠ NULL)
    (hs : heap_find st.heap s = none) (hr0 : r ≠ NULL) (hr : heap_find st.heap r = none)
    (hsr : s ≠ r)
    (hdev : load st dev env.layout.pnp_id = .ok (Cell.fn (Func.kind id)))
    (hcount : n = (env.kind_pnp_id id dev irp.IdType).1 % 2 ^ 32) (hn : n ≠ 0)
    (hm : m = n * sizeof_WCHAR % env.arch.size_mod / sizeof_WCHAR) :
    ((env.arch = Arch.x64 ∨ n < 2 ^ 31) ↔ n * sizeof_WCHAR < env.arch.size_mod) ∧
    (n * sizeof_WCHAR < env.arch.size_mod → m = n) ∧
    (n ≤ 512 → m = n) ∧
    (m ≤ 512 →
      ∃ scratch st1,
        device__pnp_id env (wv_mallocz st 512).2 dev irp.IdType s =
          .ok (n, ⟨st.heap ++ [⟨s, scratch⟩], (r, g2) :: rest2,
                   st.log ++ [Event.alloc 512 s, Event.call (Func.kind id) dev]⟩) ∧
        scratch.length = 512 ∧
        device__pnp_query_id env st dev irp =
          .ok (NTSTATUS.STATUS_SUCCESS, { irp with Information := r }, st1) ∧
        st1.heap = st.heap ++ [⟨r, scratch.take m⟩] ∧
        (scratch.take m).length = m ∧
        st1.log = st.log ++ [Event.alloc 512 s, Event.call (Func.kind id) dev,
          Event.alloc m r, Event.free s, Event.complete r NTSTATUS.STATUS_SUCCESS]) ∧
    (512 < m → device__pnp_query_id env st dev irp = .error Fault.bad_access) := by
  have hn32 : n < 2 ^ 32 := by rw [hcount]; exact Nat.mod_lt _ (by decide)
  have hwrap : (env.arch = Arch.x64 ∨ n < 2 ^ 31) ↔ n * sizeof_WCHAR < env.arch.size_mod := by
    cases env.arch with
    | x86 =>
      constructor
      · intro h
        rcases h with h | h
        · cases h
        · show n * 2 < 2 ^ 32
          omega
      · intro h
        have h2 : n * 2 < 2 ^ 32 := h
        right; omega
    | x64 =>
      constructor
      · intro _
        show n * 2 < 2 ^ 64
        omega
      · intro _
        exact Or.inl rfl
  have hexact : n * sizeof_WCHAR < env.arch.size_mod → m = n := by
    intro h
    rw [hm, Nat.mod_eq_of_lt h]
    simp [sizeof_WCHAR]
  have hn0 : (env.kind_pnp_id id dev irp.IdType).1 % 2 ^ 32 ≠ 0 := by rw [← hcount]; exact hn
  have hm2 : m = (env.kind_pnp_id id dev irp.IdType).1 % 2 ^ 32 * sizeof_WCHAR %
      env.arch.size_mod / sizeof_WCHAR := by rw [← hcount]; exact hm
  refine ⟨hwrap, hexact, ?_, ?_, ?_⟩
  · intro h512
    apply hexact
    apply hwrap.mp
    right; omega
  · intro h512
    have hE := pnp_query_id_success env st dev irp s r g g2 rest2 id m hpool hs0 hs hr0 hr hsr
      hdev hn0 hm2 h512
    have hdrop : (stale_cells g2 m).drop m = [] := by
      apply List.drop_eq_nil_of_le; rw [stale_cells_length]
    rw [hdrop, List.append_nil] at hE
    refine ⟨_, _, ?_, ?_, hE, rfl, ?_, rfl⟩
    · have hK := device__pnp_id_kind env st dev irp.IdType s (List.replicate 512 (Cell.word 0))
        ((r, g2) :: rest2) (st.log ++ [Event.alloc 512 s]) id hdev hs
      rw [← hcount, List.length_replicate, List.append_assoc] at hK
      simp only [wv_mallocz, pool_alloc, hpool, hs0, if_false, if_true]
      exact hK
    · rw [List.length_map, List.length_range]
    · rw [List.length_take, List.length_map, List.length_range]; omega
  · intro hover
    exact pnp_query_id_overrun env st dev irp s r g g2 rest2 id m hpool hs0 hs hr0 hr hsr hdev
      hn0 hm2 hover

/-- Witness for C13: identity operation 0 of `env8` answers with three wide
characters, which are copied; the identity operation of `env_over` answers
with 513, and the copy reads past the scratch buffer. -/
theorem pnp_query_id_copy_in_bounds_witness :
    (∃ scratch st1,
      device__pnp_id env8 (wv_mallocz st_query 512).2 100 1 200 =
        .ok (3, ⟨st_query.heap ++ [⟨200, scratch⟩], (300, [Cell.word 5]) :: [],
                 st_query.log ++ [Event.alloc 512 200, Event.call (Func.kind 0) 100]⟩) ∧
      scratch.length = 512 ∧
      device__pnp_query_id env8 st_query 100 ⟨1, 55⟩ =
        .ok (NTSTATUS.STATUS_SUCCESS, ⟨1, 300⟩, st1) ∧
      st1.heap = st_query.heap ++ [⟨300, scratch.take 3⟩] ∧
      (scratch.take 3).length = 3 ∧
      st1.log = st_query.log ++ [Event.alloc 512 200, Event.call (Func.kind 0) 100,
        Event.alloc 3 300, Event.free 200, Event.complete 300 NTSTATUS.STATUS_SUCCESS]) ∧
    device__pnp_query_id env_over st_query 100 ⟨1, 55⟩ = .error Fault.bad_access :=
  ⟨(pnp_query_id_copy_in_bounds env8 st_query 100 ⟨1, 55⟩ 200 300 [] [Cell.word 5] [] 0 3 3
      rfl (by decide) rfl (by decide) rfl (by decide) rfl (by decide) (by decide)
      (by decide)).2.2.2.1 (by decide),
   (pnp_query_id_copy_in_bounds env_over st_query 100 ⟨1, 55⟩ 200 300 [] [Cell.word 5] [] 0
      513 513 rfl (by decide) rfl (by decide) rfl (by decide) rfl (by decide) (by decide)
      (by decide)).2.2.2.2 (by decide)⟩

/-- C14: when the scratch buffer cannot be allocated, the request is not
completed with an information value of 0 but with the value
`IoStatus.Information` held when the request arrived: here 55, with an
exhausted pool. -/
theorem pnp_query_id_stale_information :
    device__pnp_query_id env8 st_query_dry 100 ⟨1, 55⟩ =
      .ok (NTSTATUS.STATUS_INSUFFICIENT_RESOURCES, ⟨1, 55⟩,
           ⟨st_query_dry.heap, [],
            [Event.alloc 512 NULL,
             Event.complete 55 NTSTATUS.STATUS_INSUFFICIENT_RESOURCES]⟩) :=
  pnp_query_id_no_scratch env8 st_query_dry 100 ⟨1, 55⟩ rfl

/-- C15: handle association round trip.  For every non-null handle `h` with
an extension area and every device `d`, `device__set h d` returns and
`device__get h` then returns `d`; a further `device__set h d2` makes
`device__get h` return `d2` (the last set wins); and `device__get h2` is
unchanged for every handle `h2` whose extension is not that of `h`. -/
theorem device__set_get (os : Objects) (h d e old : Ptr) (hh : h ≠ NULL)
    (hext : os.DeviceExtension h = some e) (he : e ≠ NULL) (hslot : os.device e = some old) :
    ∃ os1, device__set os h d = .ok os1 ∧
      device__get os1 h = .ok d ∧
      (∀ d2, ∃ os2, device__set os1 h d2 = .ok os2 ∧ device__get os2 h = .ok d2) ∧
      (∀ h2, os.DeviceExtension h2 ≠ some e → device__get os1 h2 = device__get os h2) := by
  refine ⟨{ os with device := fun a => if a = e then some d else os.device a }, ?_, ?_, ?_, ?_⟩
  · simp [device__set, deref, hh, hext, he, hslot]
  · simp [device__get, deref, hh, hext, he]
  · intro d2
    refine ⟨{ os with device := fun a => if a = e then some d2 else
        (fun a => if a = e then some d else os.device a) a }, ?_, ?_⟩
    · simp [device__set, deref, hh, hext, he]
    · simp [device__get, deref, hh, hext, he]
  · intro h2 hne
    by_cases h0 : h2 = NULL
    · simp [device__get, h0]
    · cases hx : os.DeviceExtension h2 with
      | none => simp [device__get, deref, h0, hx]
      | some e2 =>
        have hne2 : e2 ≠ e := fun heq => hne (by rw [hx, heq])
        simp [device__get, deref, h0, hx, hne2]

/-- Witness for C15: the handles 10 and 11 of `os_two`. -/
theorem device__set_get_witness :
    ∃ os1, device__set os_two 10 5 = .ok os1 ∧
      device__get os1 10 = .ok 5 ∧
      (∀ d2, ∃ os2, device__set os1 10 d2 = .ok os2 ∧ device__get os2 10 = .ok d2) ∧
      (∀ h2, os_two.DeviceExtension h2 ≠ some 20 → device__get os1 h2 = device__get os_two h2) :=
  device__set_get os_two 10 5 20 7 (by decide) rfl (by decide) rfl

/-- C16: the byte swap is an involution on 16-bit values: for every 16-bit
`x`, `ntohs (htons x) = x` and `htons (ntohs x) = x`. -/
theorem ntohs_htons_involution (x : Nat) (h : x < 2 ^ 16) :
    ntohs (htons x) = x ∧ htons (ntohs x) = x := by
  have hv : (x % 256 * 256 + x / 256 % 256) % 256 * 256 +
      (x % 256 * 256 + x / 256 % 256) / 256 % 256 = x := by
    have hhi : x / 256 < 256 := by omega
    have hlo : x % 256 < 256 := Nat.mod_lt _ (by decide)
    rw [Nat.mod_eq_of_lt hhi]
    have h1 : (x % 256 * 256 + x / 256) % 256 = x / 256 := by omega
    have h2 : (x % 256 * 256 + x / 256) / 256 = x % 256 := by omega
    rw [h1, h2, Nat.mod_eq_of_lt hlo]
    omega
  constructor
  · rw [htons_value, ntohs_value, hv]
  · rw [ntohs_value, htons_value, hv]

/-- Witness for C16: swapping `0x1234` twice. -/
theorem ntohs_htons_involution_witness :
    ntohs (htons 0x1234) = 0x1234 ∧ htons (ntohs 0x1234) = 0x1234 :=
  ntohs_htons_involution 0x1234 (by decide)

/-! ## The PnP ID query for an arbitrary device -/

end WinVBlock
